import Mathlib

/-!
Shallow embedding of `src/assistant.py` (Legalassistant).

The file models the pure control flow of the four functions the claims are
about: `scrape_content`, `safe_tool_call`, `handle_tool_outputs` and
`get_agent_response`.  External effects (the HTTP proxy, the BeautifulSoup
HTML parser, the remote assistant service, `json.loads` and `json.dumps`)
are supplied by explicit environment records; a Python exception is a value
of `PyExn`, operations that may raise return `Except PyExn`.  Python `None`
results are `Option.none`.
-/

namespace Legalassistant

/-- A Python exception, carrying the text `str(e)` would produce. -/
structure PyExn where
  msg : String
  deriving DecidableEq

/-- The dict `{content, links}` returned by `scrape_content` on success. -/
structure ScrapeResult where
  content : String
  links : List String
  deriving DecidableEq

/-- Python values flowing through tool dispatch: strings produced by
`safe_tool_call` and the scrape result dict. -/
inductive Value where
  | str : String → Value
  | scrape : ScrapeResult → Value
  deriving DecidableEq

/-- Outcome of `requests.get(PROXY_URL, params=params)`: a response with a
status code and body, or one of the exception classes caught by
`scrape_content`. -/
inductive ReqOutcome where
  | success (status : Nat) (body : String)
  | timeout
  | tooManyRedirects
  | reqError (msg : String)
  deriving DecidableEq

/-- The facts `scrape_content` reads off a `BeautifulSoup(body, "html.parser")`
object: `get_text(separator="\n", strip=True)` and, for each `<a>` tag in
document order, its `href` attribute (`none` when the attribute is absent). -/
structure Soup where
  text : String
  anchors : List (Option String)
  deriving DecidableEq

/-- Environment of one `scrape_content` call: the outcome of the proxy
request and the (external, BeautifulSoup) HTML parse. -/
structure ScrapeEnv where
  request : ReqOutcome
  parse : String → Soup

/-- Ordered insertion keeping the list strictly sorted and duplicate free;
folding it over a list computes Python `sorted({...})`, the ascending list
of the distinct elements. -/
def insertSorted {α : Type} [LinearOrder α] (x : α) : List α → List α
  | [] => [x]
  | y :: ys => if x < y then x :: y :: ys else if x = y then y :: ys else y :: insertSorted x ys

/-- Python `sorted(set(l))`: the distinct elements of `l` in ascending order. -/
def pySortedSet {α : Type} [LinearOrder α] (l : List α) : List α :=
  l.foldr insertSorted []

/-- `scrape_content(url)` from `src/assistant.py`.  On a 200 response it
returns `{content, links}` where `content` is the parsed text and `links`
is `sorted({a.get("href") for a in soup.find_all("a", href=True) if a.get("href")})`:
the hrefs that are present (`filterMap id`) and truthy (nonempty), as a
sorted deduplicated list.  On a non-200 status or any caught request
exception it reports the error to the UI and returns `None`. -/
def scrape_content (env : ScrapeEnv) (url : String) : Option ScrapeResult :=
  match env.request with
  | .success status body =>
    if status = 200 then
      let soup := env.parse body
      some { content := soup.text,
             links := pySortedSet ((soup.anchors.filterMap id).filter (fun h => h ≠ "")) }
    else
      none
  | .timeout => none
  | .tooManyRedirects => none
  | .reqError _ => none

/-- `safe_tool_call(func, tool_name, **kwargs)`.  The first argument is the
outcome of the Python call `func(**kwargs)`: a raised exception, `None`, or
a value.  The function never lets an exception escape: it maps `None` to a
no-content string and an exception to an error string. -/
def safe_tool_call (callResult : Except PyExn (Option Value)) (tool_name : String) : Value :=
  match callResult with
  | .ok (some v) => v
  | .ok none => .str ("No content returned from " ++ tool_name)
  | .error e => .str ("Error occurred in " ++ tool_name ++ ": " ++ e.msg)

section SortedSetLemmas

variable {α : Type} [LinearOrder α]

theorem mem_insertSorted (x y : α) (l : List α) :
    y ∈ insertSorted x l ↔ y = x ∨ y ∈ l := by
  induction l with
  | nil => simp [insertSorted]
  | cons z zs ih =>
    by_cases h1 : x < z
    · simp [insertSorted, h1]
    · by_cases h2 : x = z
      · subst h2
        simp [insertSorted, h1]
      · simp [insertSorted, h1, h2, ih]
        tauto

theorem sorted_insertSorted (x : α) (l : List α) (h : l.Sorted (· < ·)) :
    (insertSorted x l).Sorted (· < ·) := by
  induction l with
  | nil => simp [insertSorted]
  | cons z zs ih =>
    rw [List.sorted_cons] at h
    obtain ⟨hz, hzs⟩ := h
    by_cases h1 : x < z
    · rw [insertSorted, if_pos h1, List.sorted_cons]
      refine ⟨?_, ?_⟩
      · intro b hb
        rcases List.mem_cons.mp hb with hb | hb
        · exact hb ▸ h1
        · exact lt_trans h1 (hz b hb)
      · rw [List.sorted_cons]
        exact ⟨hz, hzs⟩
    · by_cases h2 : x = z
      · rw [insertSorted, if_neg h1, if_pos h2, List.sorted_cons]
        exact ⟨hz, hzs⟩
      · have hzx : z < x := by
          rcases lt_trichotomy x z with h | h | h
          · exact absurd h h1
          · exact absurd h h2
          · exact h
        rw [insertSorted, if_neg h1, if_neg h2, List.sorted_cons]
        refine ⟨?_, ih hzs⟩
        intro b hb
        rcases (mem_insertSorted x b zs).mp hb with hb | hb
        · exact hb ▸ hzx
        · exact hz b hb

theorem sorted_pySortedSet (l : List α) : (pySortedSet l).Sorted (· < ·) := by
  induction l with
  | nil => simp [pySortedSet]
  | cons x xs ih => exact sorted_insertSorted x _ ih

theorem mem_pySortedSet (y : α) (l : List α) : y ∈ pySortedSet l ↔ y ∈ l := by
  induction l with
  | nil => simp [pySortedSet]
  | cons x xs ih =>
    show y ∈ insertSorted x (pySortedSet xs) ↔ _
    rw [mem_insertSorted, ih]
    simp

theorem nodup_pySortedSet (l : List α) : (pySortedSet l).Nodup := by
  have h := sorted_pySortedSet l
  exact List.Pairwise.imp ne_of_lt h

end SortedSetLemmas

/-- One entry of `run.required_action.submit_tool_outputs.tool_calls`:
the call identifier, `call.function.name` and the raw JSON argument
string `call.function.arguments`. -/
structure ToolCall where
  id : String
  functionName : String
  arguments : String
  deriving DecidableEq

/-- One `{"tool_call_id": ..., "output": json.dumps(output)}` dict. -/
structure ToolOutput where
  tool_call_id : String
  output : String
  deriving DecidableEq

/-- A remote run object, restricted to the fields the code reads: its
`status` string, and the pending tool calls (meaningful when the status is
`requires_action`). -/
structure RunObj where
  status : String
  toolCalls : List ToolCall
  deriving DecidableEq

/-- The single entry of `available_functions`; the only registered tool is
`scrape_content`. -/
inductive ToolFunc where
  | scrape_content
  deriving DecidableEq

/-- `available_functions.get(name)` on the dict
`{"scrape_content": scrape_content}`. -/
def available_functions (name : String) : Option ToolFunc :=
  if name = "scrape_content" then some ToolFunc.scrape_content else none

/-- The keyword arguments produced by `json.loads(call.function.arguments)`,
as a name/value list (the registered tool takes string parameters). -/
abbrev Args := List (String × String)

/-- An inline citation attached to a text block: its placeholder text and,
when `annotation.type == "file_path"`, the referenced file id. -/
inductive Ann where
  | file_path (text : String) (file_id : String)
  | otherKind (text : String)
  deriving DecidableEq

/-- One content block of an assistant message: a text block with its value
and citations, an image block with its file id, or a block of another type
(skipped by the loop). -/
inductive ContentBlock where
  | text (value : String) (anns : List Ann)
  | image_file (file_id : String)
  | otherKind
  deriving DecidableEq

/-- A thread message: its role and ordered content blocks. -/
structure Msg where
  role : String
  content : List ContentBlock
  deriving DecidableEq

/-- File bytes returned by `client.files.content(id).read()`, kept opaque. -/
abbrev Bytes := String

/-- Observable external actions of tool dispatch: a local tool function was
called with its parsed arguments, or `submit_tool_outputs` was called with
a batch of outputs. -/
inductive Event where
  | invoked (name : String) (args : Args)
  | submitted (outs : List ToolOutput)
  deriving DecidableEq

/-- The remote world one `get_agent_response` call interacts with: the
outcome of each remote-API call the code makes, the behavior of the
registered tool bodies (network dependent), and the `json` codec.
`retrieve k` is the result of the `k`-th `runs.retrieve` poll. -/
structure Env where
  createMessage : Except PyExn Unit
  createRun : Except PyExn RunObj
  retrieve : Nat → Except PyExn RunObj
  submit : List ToolOutput → Except PyExn RunObj
  jsonLoads : String → Except PyExn Args
  invoke : ToolFunc → Args → Except PyExn (Option Value)
  dumps : Value → String
  listLastMessage : Except PyExn Msg
  fileContent : String → Except PyExn Bytes

/-- The `for call in run.required_action.submit_tool_outputs.tool_calls`
loop of `handle_tool_outputs`: looks each name up in `available_functions`
(raising `ValueError` when absent), parses the arguments with `json.loads`,
runs the tool through `safe_tool_call` and collects
`{"tool_call_id": call.id, "output": json.dumps(output)}`.  Returns the
trace of tool invocations together with the outputs, or the first raised
exception. -/
def processCalls (env : Env) : List ToolCall → List Event × Except PyExn (List ToolOutput)
  | [] => ([], .ok [])
  | c :: rest =>
    match available_functions c.functionName with
    | none =>
      ([], .error ⟨"Function " ++ c.functionName ++ " not found in available_functions."⟩)
    | some f =>
      match env.jsonLoads c.arguments with
      | .error e => ([], .error e)
      | .ok args =>
        let out := safe_tool_call (env.invoke f args) c.functionName
        let tail := processCalls env rest
        (Event.invoked c.functionName args :: tail.1,
         match tail.2 with
         | .error e => .error e
         | .ok outs => .ok ({ tool_call_id := c.id, output := env.dumps out } :: outs))

/-- `handle_tool_outputs(run)`: processes every pending tool call, then
calls `submit_tool_outputs` with the whole batch and returns the resulting
run.  Any exception (unknown tool name, argument parse failure, submission
failure) is caught by its `except` clause, reported to the UI, and turned
into the return value `None`. -/
def handle_tool_outputs (env : Env) (run : RunObj) : List Event × Option RunObj :=
  let tail := processCalls env run.toolCalls
  match tail.2 with
  | .error _ => (tail.1, none)
  | .ok outs =>
    match env.submit outs with
    | .error _ => (tail.1 ++ [Event.submitted outs], none)
    | .ok r => (tail.1 ++ [Event.submitted outs], some r)

/-- Result of the `while run.status in ["queued", "in_progress"]` loop:
it exited normally after `k` polls, an exception escaped its body, or the
fuel ran out (the Python loop is still spinning). -/
inductive PollRes where
  | exited (k : Nat)
  | raised (e : PyExn)
  | spin
  deriving DecidableEq

/-- The polling loop of `get_agent_response`.  Each iteration re-fetches the
run; on `requires_action` it replaces the run with `handle_tool_outputs`'
result (which may be `None`, making the next `run.status` access raise
`AttributeError`).  `fuel` bounds the number of iterations modelled. -/
def pollLoop (env : Env) : Nat → Nat → Option RunObj → List Event × PollRes
  | 0, _, _ => ([], .spin)
  | fuel + 1, k, orun =>
    match orun with
    | none => ([], .raised ⟨"NoneType object has no attribute status"⟩)
    | some run =>
      if run.status = "queued" ∨ run.status = "in_progress" then
        match env.retrieve k with
        | .error e => ([], .raised e)
        | .ok r =>
          if r.status = "requires_action" then
            let step := handle_tool_outputs env r
            let rest := pollLoop env fuel (k + 1) step.2
            (step.1 ++ rest.1, rest.2)
          else
            pollLoop env fuel (k + 1) (some r)
      else
        ([], .exited k)

/-- The `for annotation in content.text.annotations` loop: for each
`file_path` citation, fetch the file bytes and record a download named by
the final path segment of the citation text. -/
def annDownloads (env : Env) : List Ann → Except PyExn (List (String × Bytes))
  | [] => .ok []
  | Ann.file_path t fid :: rest =>
    match env.fileContent fid with
    | .error e => .error e
    | .ok b =>
      match annDownloads env rest with
      | .error e => .error e
      | .ok ds => .ok (((t.splitOn "/").getLastD "", b) :: ds)
  | Ann.otherKind _ :: rest => annDownloads env rest

/-- The `for content in last_message.content` loop: text blocks append
their value and collect `file_path` downloads; image blocks fetch the image
bytes, record `(<fileId>.png, bytes)` and append the placeholder marker;
other block types are skipped. -/
def formatBlocks (env : Env) :
    List ContentBlock → Except PyExn (String × List (String × Bytes) × List (String × Bytes))
  | [] => .ok ("", [], [])
  | ContentBlock.text v anns :: rest =>
    match annDownloads env anns with
    | .error e => .error e
    | .ok ds =>
      match formatBlocks env rest with
      | .error e => .error e
      | .ok (t, ds2, imgs) => .ok (v ++ t, ds ++ ds2, imgs)
  | ContentBlock.image_file fid :: rest =>
    match env.fileContent fid with
    | .error e => .error e
    | .ok b =>
      match formatBlocks env rest with
      | .error e => .error e
      | .ok (t, ds, imgs) =>
        .ok ("[Image generated: " ++ fid ++ ".png]\n" ++ t, ds, (fid ++ ".png", b) :: imgs)
  | ContentBlock.otherKind :: rest => formatBlocks env rest

/-- Steps 5-6 of the loop: if the last message is not from the assistant the
response text is a generic error (attachment lists stay empty); otherwise
the content blocks are walked in order. -/
def formatMessage (env : Env) (msg : Msg) :
    Except PyExn (String × List (String × Bytes) × List (String × Bytes)) :=
  if msg.role = "assistant" then formatBlocks env msg.content
  else .ok ("Error: No assistant response", [], [])

/-- Result of the body of `get_agent_response`'s `try` block: a normal
return value, a raised exception, or a still-spinning poll loop. -/
inductive BodyRes where
  | done (t : String × List (String × Bytes) × List (String × Bytes))
  | exn (e : PyExn)
  | spin
  deriving DecidableEq

/-- The `try` block of `get_agent_response(assistant_id, user_message)`:
append the user message, create a run, poll it to a terminal status
(resolving tool calls), fetch the newest thread message and format it. -/
def get_agent_response_body (env : Env) (assistant_id user_message : String) (fuel : Nat) :
    List Event × BodyRes :=
  match env.createMessage with
  | .error e => ([], .exn e)
  | .ok _ =>
    match env.createRun with
    | .error e => ([], .exn e)
    | .ok run0 =>
      let loop := pollLoop env fuel 0 (some run0)
      match loop.2 with
      | .spin => (loop.1, .spin)
      | .raised e => (loop.1, .exn e)
      | .exited _ =>
        match env.listLastMessage with
        | .error e => (loop.1, .exn e)
        | .ok msg =>
          match formatMessage env msg with
          | .error e => (loop.1, .exn e)
          | .ok t => (loop.1, .done t)

/-- `get_agent_response` with its surrounding `except` clause: any exception
raised by the body is reported to the UI and converted into the return
value `(f"Error: {str(e)}", [], [])`.  The result is `none` only when the
fuel bound was hit while the poll loop was still spinning. -/
def get_agent_response (env : Env) (assistant_id user_message : String) (fuel : Nat) :
    List Event × Option (String × List (String × Bytes) × List (String × Bytes)) :=
  let body := get_agent_response_body env assistant_id user_message fuel
  (body.1,
   match body.2 with
   | .done t => some t
   | .exn e => some ("Error: " ++ e.msg, [], [])
   | .spin => none)

/-- The arguments `json.loads(call.function.arguments)` yields for a call
whose arguments parse successfully (arbitrary otherwise). -/
def parsedArg (env : Env) (c : ToolCall) : Args :=
  match env.jsonLoads c.arguments with
  | .ok a => a
  | .error _ => []

/-- The output dict recorded for one registered tool call: the call's id
paired with the serialized result of dispatching `scrape_content`'s body on
the parsed arguments through `safe_tool_call`. -/
def expectedOutput (env : Env) (c : ToolCall) : ToolOutput :=
  { tool_call_id := c.id,
    output := env.dumps (safe_tool_call (env.invoke ToolFunc.scrape_content (parsedArg env c)) c.functionName) }

/-- The HTML body of the C9 scenario. -/
def html9 : String :=
  "<html><body><p>Hello</p><a href=\"/a\">x</a><a href=\"/a\">y</a></body></html>"

/-- A concrete scrape environment: 200 response whose parse has duplicate,
absent and empty hrefs. -/
def envC4 : ScrapeEnv where
  request := ReqOutcome.success 200 "<html/>"
  parse := fun _ => ⟨"txt", [some "/b", none, some "", some "/a", some "/b"]⟩

/-- A concrete scrape environment replaying the C9 scenario: the proxy
returns `html9` with status 200 and BeautifulSoup extracts the text
`"Hello\nx\ny"` and the two `/a` hrefs. -/
def envC9 : ScrapeEnv where
  request := ReqOutcome.success 200 html9
  parse := fun _ => ⟨"Hello\nx\ny", [some "/a", some "/a"]⟩

/-- A concrete scrape environment whose proxy request returns status 404. -/
def envC5 : ScrapeEnv where
  request := ReqOutcome.success 404 "not found"
  parse := fun _ => ⟨"", []⟩

/-- A concrete scrape environment whose proxy request times out. -/
def envC10 : ScrapeEnv where
  request := ReqOutcome.timeout
  parse := fun _ => ⟨"", []⟩

/-- C4: for every HTML body received with a 200 status, the link list
returned by `scrape_content` is strictly ascending (hence sorted and
duplicate free) and every entry is a nonempty href present on some anchor
of the page, so anchors with a missing or empty link target contribute no
entry. -/
theorem scrape_links_sorted_nodup (env : ScrapeEnv) (url body : String)
    (hreq : env.request = ReqOutcome.success 200 body) :
    ∃ r, scrape_content env url = some r ∧
      r.links.Sorted (· < ·) ∧ r.links.Nodup ∧
      ∀ l ∈ r.links, l ≠ "" ∧ some l ∈ (env.parse body).anchors := by
  have hsc : scrape_content env url =
      some { content := (env.parse body).text,
             links := pySortedSet
               (((env.parse body).anchors.filterMap id).filter (fun h => h ≠ "")) } := by
    simp [scrape_content, hreq]
  refine ⟨_, hsc, sorted_pySortedSet _, nodup_pySortedSet _, ?_⟩
  intro l hl
  rw [mem_pySortedSet, List.mem_filter] at hl
  obtain ⟨hmem, hne⟩ := hl
  rw [List.mem_filterMap] at hmem
  obtain ⟨a, ha, hae⟩ := hmem
  refine ⟨by simpa using hne, ?_⟩
  have hal : a = some l := by simpa using hae
  exact hal ▸ ha

/-- C4 witness: the environment `envC4` yields links `["/a", "/b"]`,
evaluating the theorem at a concrete input. -/
theorem scrape_links_sorted_nodup_witness :
    ∃ r, scrape_content envC4 "http://example.org" = some r ∧
      r.links.Sorted (· < ·) ∧ r.links.Nodup ∧
      ∀ l ∈ r.links, l ≠ "" ∧ some l ∈ (envC4.parse "<html/>").anchors :=
  scrape_links_sorted_nodup envC4 "http://example.org" "<html/>" rfl

/-- C5: for every proxy response with a status code other than 200,
`scrape_content` returns `None`; it is a total function, so no exception
crosses its boundary. -/
theorem scrape_non200_returns_none (env : ScrapeEnv) (url : String)
    (status : Nat) (body : String)
    (hreq : env.request = ReqOutcome.success status body) (hst : status ≠ 200) :
    scrape_content env url = none := by
  simp [scrape_content, hreq, hst]

/-- C5 witness: the 404 environment yields no result. -/
theorem scrape_non200_returns_none_witness :
    scrape_content envC5 "http://example.org" = none :=
  scrape_non200_returns_none envC5 "http://example.org" 404 "not found" rfl (by decide)

/-- C8: when the invoked tool body raises an exception, `safe_tool_call`
returns the textual error result naming the tool and the error instead of
propagating (its result type carries no exception). -/
theorem safe_tool_call_catches_exception (e : PyExn) (tool_name : String) :
    safe_tool_call (Except.error e) tool_name =
      Value.str ("Error occurred in " ++ tool_name ++ ": " ++ e.msg) := rfl

/-- C9: on the scenario input — URL `http://example.org`, 200 response with
body `html9` whose parse extracts text `"Hello\nx\ny"` and hrefs
`/a`, `/a` — `scrape_content` returns content `"Hello\nx\ny"` and the
deduplicated link list `["/a"]`. -/
theorem scrape_example_org_scenario (env : ScrapeEnv)
    (hreq : env.request = ReqOutcome.success 200 html9)
    (hparse : env.parse html9 = ⟨"Hello\nx\ny", [some "/a", some "/a"]⟩) :
    scrape_content env "http://example.org" =
      some ⟨"Hello\nx\ny", ["/a"]⟩ := by
  have hstep : insertSorted "/a" (insertSorted "/a" ([] : List String)) = ["/a"] := by
    have e1 : insertSorted "/a" ([] : List String) = ["/a"] := rfl
    rw [e1]
    unfold insertSorted
    rw [if_neg (lt_irrefl _), if_pos rfl]
  have hps : pySortedSet ["/a", "/a"] = ["/a"] := by
    unfold pySortedSet
    simpa [List.foldr] using hstep
  simp [scrape_content, hreq, hparse, hps]

/-- C9 witness: the scenario evaluated in the concrete environment. -/
theorem scrape_example_org_scenario_witness :
    scrape_content envC9 "http://example.org" = some ⟨"Hello\nx\ny", ["/a"]⟩ :=
  scrape_example_org_scenario envC9 rfl rfl

/-- C10: whenever `scrape_content` reports failure by returning `None` (as
it does on every failure path), `safe_tool_call` records the string
`"No content returned from <tool_name>"` instead, so the output for a known
tool is never the null value. -/
theorem safe_tool_call_replaces_none (env : ScrapeEnv) (url tool_name : String)
    (h : scrape_content env url = none) :
    safe_tool_call (Except.ok ((scrape_content env url).map Value.scrape)) tool_name =
      Value.str ("No content returned from " ++ tool_name) := by
  rw [h]
  rfl

/-- C10 witness: a timed-out scrape dispatched through `safe_tool_call`. -/
theorem safe_tool_call_replaces_none_witness :
    safe_tool_call (Except.ok ((scrape_content envC10 "http://example.org").map Value.scrape))
        "scrape_content" =
      Value.str ("No content returned from " ++ "scrape_content") :=
  safe_tool_call_replaces_none envC10 "http://example.org" "scrape_content" rfl

/-- If the dispatch loop of `handle_tool_outputs` finishes with a list of
outputs, every processed call's name was registered. -/
theorem processCalls_ok_registered (env : Env) (cs : List ToolCall) (outs : List ToolOutput)
    (h : (processCalls env cs).2 = Except.ok outs) :
    ∀ c ∈ cs, (available_functions c.functionName).isSome := by
  induction cs generalizing outs with
  | nil =>
    intro c hc
    simp at hc
  | cons c0 rest ih =>
    intro c hc
    cases hav : available_functions c0.functionName with
    | none =>
      rw [processCalls] at h
      simp [hav] at h
    | some f =>
      rw [processCalls] at h
      cases hj : env.jsonLoads c0.arguments with
      | error e => simp [hav, hj] at h
      | ok args =>
        simp only [hav, hj] at h
        cases ht : (processCalls env rest).2 with
        | error e => simp [ht] at h
        | ok outs2 =>
          rcases List.mem_cons.mp hc with hc0 | hcr
          · subst hc0
            simp [hav]
          · exact ih outs2 ht c hcr

/-- C1 amended: dispatch on an unregistered tool name never raises past the
boundary of `handle_tool_outputs` (it is total), but it submits nothing:
the internal `ValueError` aborts the output loop, is caught, and the
dispatcher returns `None`, so the run receives no output for the requested
calls. -/
theorem handle_unknown_tool_no_submission (env : Env) (run : RunObj)
    (h : ∃ c ∈ run.toolCalls, available_functions c.functionName = none) :
    (handle_tool_outputs env run).2 = none := by
  cases ht : (processCalls env run.toolCalls).2 with
  | error e => simp [handle_tool_outputs, ht]
  | ok outs =>
    obtain ⟨c, hc, hnone⟩ := h
    have := processCalls_ok_registered env run.toolCalls outs ht c hc
    rw [hnone] at this
    simp at this

/-- A run pausing on a single tool call whose name is not registered. -/
def runC1 : RunObj :=
  ⟨"requires_action", [⟨"call_x", "unknown_tool", "argjson"⟩]⟩

/-- A remote environment whose every operation succeeds, so the only
failure in sight is the unregistered tool name of `runC1`. -/
def envC1 : Env where
  createMessage := .ok ()
  createRun := .ok ⟨"queued", []⟩
  retrieve := fun _ => .ok runC1
  submit := fun _ => .ok ⟨"queued", []⟩
  jsonLoads := fun _ => .ok []
  invoke := fun _ _ => .ok (some (.str "ok"))
  dumps := fun v => match v with | .str s => s | .scrape r => r.content
  listLastMessage := .ok ⟨"assistant", []⟩
  fileContent := fun _ => .ok ""

/-- C1 counterexample: on a call named `unknown_tool`, even with an
environment whose submission always succeeds, dispatch performs no tool
invocation and no submission and returns `None` — the run receives no
output for the requested call, contradicting the claim that a descriptive
failure string is produced as that call's output. -/
theorem handle_unknown_tool_counterexample :
    handle_tool_outputs envC1 runC1 = ([], none) := rfl

/-- C1 amended witness: the amended statement evaluated on `envC1` and
`runC1`. -/
theorem handle_unknown_tool_no_submission_witness :
    (handle_tool_outputs envC1 runC1).2 = none :=
  handle_unknown_tool_no_submission envC1 runC1
    ⟨⟨"call_x", "unknown_tool", "argjson"⟩, by simp [runC1], by simp [available_functions]⟩

/-- C3: every exception the body of `get_agent_response` raises is caught
and converted into the triple `("Error: " ++ str(e), [], [])` with both
attachment lists empty, and the only way the caller gets no triple at all
is a still-spinning poll loop — never a propagated exception. -/
theorem get_agent_response_catches_exceptions (env : Env) (aid um : String) (fuel : Nat) :
    (∀ evs e, get_agent_response_body env aid um fuel = (evs, BodyRes.exn e) →
      get_agent_response env aid um fuel = (evs, some ("Error: " ++ e.msg, [], []))) ∧
    ((get_agent_response env aid um fuel).2 = none →
      (get_agent_response_body env aid um fuel).2 = BodyRes.spin) := by
  constructor
  · intro evs e h
    simp [get_agent_response, h]
  · intro h
    rcases hb : (get_agent_response_body env aid um fuel).2 with t | e | _
    · simp [get_agent_response, hb] at h
    · simp [get_agent_response, hb] at h
    · rfl

/-- An environment whose very first remote call raises. -/
def envC3 : Env where
  createMessage := .error ⟨"boom"⟩
  createRun := .ok ⟨"queued", []⟩
  retrieve := fun _ => .ok ⟨"completed", []⟩
  submit := fun _ => .ok ⟨"queued", []⟩
  jsonLoads := fun _ => .ok []
  invoke := fun _ _ => .ok (some (.str "ok"))
  dumps := fun v => match v with | .str s => s | .scrape r => r.content
  listLastMessage := .ok ⟨"assistant", []⟩
  fileContent := fun _ => .ok ""

/-- C3 witness: the raising environment produces the error triple with
empty attachment lists. -/
theorem get_agent_response_catches_exceptions_witness :
    get_agent_response envC3 "aid" "hello" 1 = ([], some ("Error: " ++ "boom", [], [])) :=
  (get_agent_response_catches_exceptions envC3 "aid" "hello" 1).1 [] ⟨"boom"⟩ rfl

/-- When every pending call is registered and its arguments parse, the
dispatch loop invokes each named tool once, in order, on the parsed
arguments, and collects exactly one output per call keyed by its id. -/
theorem processCalls_all_good (env : Env) (cs : List ToolCall)
    (h4 : ∀ c ∈ cs, c.functionName = "scrape_content")
    (h5 : ∀ c ∈ cs, ∃ a, env.jsonLoads c.arguments = Except.ok a) :
    processCalls env cs =
      (cs.map (fun c => Event.invoked c.functionName (parsedArg env c)),
       Except.ok (cs.map (expectedOutput env))) := by
  induction cs with
  | nil => rfl
  | cons c rest ih =>
    have hc : c.functionName = "scrape_content" := h4 c (List.mem_cons_self c rest)
    obtain ⟨a, ha⟩ := h5 c (List.mem_cons_self c rest)
    have hav : available_functions c.functionName = some ToolFunc.scrape_content := by
      simp [available_functions, hc]
    have ihh := ih (fun d hd => h4 d (List.mem_cons_of_mem c hd))
                   (fun d hd => h5 d (List.mem_cons_of_mem c hd))
    simp [processCalls, hav, ha, ihh, parsedArg, expectedOutput]

/-- `handle_tool_outputs` on an all-good batch: every call is invoked, the
whole batch of per-call outputs is submitted together, and the submitted
run is returned. -/
theorem handle_all_good (env : Env) (run runB : RunObj)
    (h4 : ∀ c ∈ run.toolCalls, c.functionName = "scrape_content")
    (h5 : ∀ c ∈ run.toolCalls, ∃ a, env.jsonLoads c.arguments = Except.ok a)
    (h6 : env.submit (run.toolCalls.map (expectedOutput env)) = Except.ok runB) :
    handle_tool_outputs env run =
      (run.toolCalls.map (fun c => Event.invoked c.functionName (parsedArg env c)) ++
        [Event.submitted (run.toolCalls.map (expectedOutput env))],
       some runB) := by
  simp [handle_tool_outputs, processCalls_all_good env run.toolCalls h4 h5, h6]

/-- C2: a run that pauses on `requires_action` with registered, parseable
tool calls and then completes.  The loop's external trace is exactly one
invocation per requested call of the named tool on its JSON-parsed
arguments followed by a single submission of the whole output batch, the
batch holds exactly one output per call keyed by the call's id, and the
returned triple comes from the message fetched after the run completed —
i.e. completion is only reached after the submission. -/
theorem tool_call_run_dispatch_and_submit (env : Env) (aid um : String)
    (run0 runA runB runC : RunObj) (v : String)
    (h1 : env.createMessage = Except.ok ())
    (h2 : env.createRun = Except.ok run0) (h2s : run0.status = "queued")
    (h3 : env.retrieve 0 = Except.ok runA) (h3s : runA.status = "requires_action")
    (h4 : ∀ c ∈ runA.toolCalls, c.functionName = "scrape_content")
    (h5 : ∀ c ∈ runA.toolCalls, ∃ a, env.jsonLoads c.arguments = Except.ok a)
    (h6 : env.submit (runA.toolCalls.map (expectedOutput env)) = Except.ok runB)
    (h6s : runB.status = "queued")
    (h7 : env.retrieve 1 = Except.ok runC) (h7s : runC.status = "completed")
    (h8 : env.listLastMessage = Except.ok ⟨"assistant", [ContentBlock.text v []]⟩) :
    get_agent_response env aid um 3 =
      (runA.toolCalls.map (fun c => Event.invoked c.functionName (parsedArg env c)) ++
        [Event.submitted (runA.toolCalls.map (expectedOutput env))],
       some (v, [], [])) ∧
    (runA.toolCalls.map (expectedOutput env)).map ToolOutput.tool_call_id =
      runA.toolCalls.map ToolCall.id := by
  constructor
  · have hh := handle_all_good env runA runB h4 h5 h6
    simp [get_agent_response, get_agent_response_body, pollLoop, h1, h2, h2s, h3, h3s, hh,
      h6s, h7, h7s, h8, formatMessage, formatBlocks, annDownloads, String.append_empty]
  · simp [List.map_map, expectedOutput, Function.comp]

/-- A one-call environment for the C2 scenario. -/
def sampleCall : ToolCall := ⟨"call_1", "scrape_content", "argjson"⟩

/-- A concrete remote environment scripting: queued run, one pending
`scrape_content` call, successful submission, completion, and a final
assistant message reading `done`. -/
def envC2 : Env where
  createMessage := .ok ()
  createRun := .ok ⟨"queued", []⟩
  retrieve := fun k => if k = 0 then .ok ⟨"requires_action", [sampleCall]⟩ else .ok ⟨"completed", []⟩
  submit := fun _ => .ok ⟨"queued", []⟩
  jsonLoads := fun _ => .ok [("url", "http://example.org")]
  invoke := fun _ _ => .ok (some (.str "result"))
  dumps := fun v => match v with | .str s => s | .scrape r => r.content
  listLastMessage := .ok ⟨"assistant", [ContentBlock.text "done" []]⟩
  fileContent := fun _ => .ok ""

/-- C2 witness: the scripted scenario evaluated concretely — one
invocation, one submission with the output keyed by `call_1`, then the
completed answer `done`. -/
theorem tool_call_run_dispatch_and_submit_witness :
    get_agent_response envC2 "aid" "hello" 3 =
      ([Event.invoked "scrape_content" [("url", "http://example.org")],
        Event.submitted [⟨"call_1", "result"⟩]],
       some ("done", [], [])) :=
  (tool_call_run_dispatch_and_submit envC2 "aid" "hello"
    ⟨"queued", []⟩ ⟨"requires_action", [sampleCall]⟩ ⟨"queued", []⟩ ⟨"completed", []⟩ "done"
    rfl rfl rfl rfl rfl
    (by intro c hc; simp [sampleCall] at hc; simp [hc, sampleCall])
    (by intro c hc; exact ⟨[("url", "http://example.org")], rfl⟩)
    rfl rfl rfl rfl rfl).1

/-- C6: a run that completes immediately (the first poll reports
`completed`, no `requires_action` pause) whose final assistant message is a
single text block without citations.  The loop performs no tool invocation
or submission and returns that block's text verbatim with both attachment
lists empty. -/
theorem immediate_completion_text_verbatim (env : Env) (aid um : String)
    (run0 runC : RunObj) (v : String)
    (h1 : env.createMessage = Except.ok ())
    (h2 : env.createRun = Except.ok run0) (h2s : run0.status = "queued")
    (h3 : env.retrieve 0 = Except.ok runC) (h3s : runC.status = "completed")
    (h8 : env.listLastMessage = Except.ok ⟨"assistant", [ContentBlock.text v []]⟩) :
    get_agent_response env aid um 2 = ([], some (v, [], [])) := by
  simp [get_agent_response, get_agent_response_body, pollLoop, h1, h2, h2s, h3, h3s, h8,
    formatMessage, formatBlocks, annDownloads, String.append_empty]

/-- A concrete environment for the C6 scenario. -/
def envC6 : Env where
  createMessage := .ok ()
  createRun := .ok ⟨"queued", []⟩
  retrieve := fun _ => .ok ⟨"completed", []⟩
  submit := fun _ => .ok ⟨"queued", []⟩
  jsonLoads := fun _ => .ok []
  invoke := fun _ _ => .ok (some (.str "ok"))
  dumps := fun v => match v with | .str s => s | .scrape r => r.content
  listLastMessage := .ok ⟨"assistant", [ContentBlock.text "The answer." []]⟩
  fileContent := fun _ => .ok ""

/-- C6 witness: the immediate-completion scenario evaluated concretely. -/
theorem immediate_completion_text_verbatim_witness :
    get_agent_response envC6 "aid" "hello" 2 = ([], some ("The answer.", [], [])) :=
  immediate_completion_text_verbatim envC6 "aid" "hello"
    ⟨"queued", []⟩ ⟨"completed", []⟩ "The answer." rfl rfl rfl rfl rfl rfl

/-- C7: a completed run whose final assistant message holds one text block
and exactly one image block with file id `fid`.  The loop fetches the image
bytes, returns exactly one image attachment named `fid ++ ".png"`, and
appends the placeholder marker `[Image generated: fid.png]` plus a newline
to the response text. -/
theorem image_block_attachment (env : Env) (aid um : String)
    (run0 runC : RunObj) (v fid : String) (b : Bytes)
    (h1 : env.createMessage = Except.ok ())
    (h2 : env.createRun = Except.ok run0) (h2s : run0.status = "queued")
    (h3 : env.retrieve 0 = Except.ok runC) (h3s : runC.status = "completed")
    (hb : env.fileContent fid = Except.ok b)
    (h8 : env.listLastMessage =
      Except.ok ⟨"assistant", [ContentBlock.text v [], ContentBlock.image_file fid]⟩) :
    get_agent_response env aid um 2 =
      ([], some (v ++ ("[Image generated: " ++ fid ++ ".png]\n"), [], [(fid ++ ".png", b)])) := by
  simp [get_agent_response, get_agent_response_body, pollLoop, h1, h2, h2s, h3, h3s, h8, hb,
    formatMessage, formatBlocks, annDownloads, String.append_empty]

/-- A concrete environment for the C7 scenario: the final message carries
the text `Here` and one image block for file `file-123`. -/
def envC7 : Env where
  createMessage := .ok ()
  createRun := .ok ⟨"queued", []⟩
  retrieve := fun _ => .ok ⟨"completed", []⟩
  submit := fun _ => .ok ⟨"queued", []⟩
  jsonLoads := fun _ => .ok []
  invoke := fun _ _ => .ok (some (.str "ok"))
  dumps := fun v => match v with | .str s => s | .scrape r => r.content
  listLastMessage := .ok ⟨"assistant", [ContentBlock.text "Here" [], ContentBlock.image_file "file-123"]⟩
  fileContent := fun _ => .ok "imgbytes"

/-- C7 witness: the image scenario evaluated concretely. -/
theorem image_block_attachment_witness :
    get_agent_response envC7 "aid" "hello" 2 =
      ([], some ("Here" ++ ("[Image generated: " ++ "file-123" ++ ".png]\n"), [],
        [("file-123" ++ ".png", "imgbytes")])) :=
  image_block_attachment envC7 "aid" "hello"
    ⟨"queued", []⟩ ⟨"completed", []⟩ "Here" "file-123" "imgbytes" rfl rfl rfl rfl rfl rfl rfl

end Legalassistant
